import Mathlib

set_option autoImplicit false

/-!
Shallow embedding of the temperature and time status-bar blocks of this
repository (`src/blocks/temperature.rs`, `src/blocks/time.rs`): the widget
data model, the update and click cycles, and configuration deserialization.
External collaborators (the `sensors` process, JSON parsing, chrono's locale
table and strftime renderer, process spawning, id generation) are passed in
as explicit inputs or function parameters. Rust `HashMap`s are modelled as
association lists, `f64` readings as rationals, `Duration` as whole seconds.
-/

/-- Widget severity states, as `crate::widget::State` (the five-level ordered
enumeration the spec lists; only the variants are needed here). -/
inductive State where
  | Idle
  | Info
  | Good
  | Warning
  | Critical
  deriving DecidableEq

/-- Widget spacing / visibility mode, as `crate::widget::Spacing`; the two
variants the blocks use. -/
inductive Spacing where
  | Normal
  | Hidden
  deriving DecidableEq

/-- Mouse buttons of `crate::input::MouseButton`; the blocks only match on
`Left`. -/
inductive MouseButton where
  | Left
  | Right
  | Middle
  | WheelUp
  | WheelDown
  deriving DecidableEq

/-- The mutable display unit `crate::widgets::button::ButtonWidget`: text,
severity state, spacing, icon, and the owning block's id. -/
structure ButtonWidget where
  id : String
  icon : Option String
  text : String
  state : State
  spacing : Spacing
  deriving DecidableEq

/-- Fresh widget for a block id, with empty text, `Idle` state and `Normal`
spacing, as a freshly built `ButtonWidget::new`. -/
def ButtonWidget.new (id : String) : ButtonWidget :=
  { id, icon := none, text := "", state := .Idle, spacing := .Normal }

def ButtonWidget.with_icon (w : ButtonWidget) (i : String) : ButtonWidget :=
  { w with icon := some i }

def ButtonWidget.with_text (w : ButtonWidget) (t : String) : ButtonWidget :=
  { w with text := t }

def ButtonWidget.with_spacing (w : ButtonWidget) (sp : Spacing) : ButtonWidget :=
  { w with spacing := sp }

def ButtonWidget.set_text (w : ButtonWidget) (t : String) : ButtonWidget :=
  { w with text := t }

def ButtonWidget.set_state (w : ButtonWidget) (st : State) : ButtonWidget :=
  { w with state := st }

def ButtonWidget.set_spacing (w : ButtonWidget) (sp : Spacing) : ButtonWidget :=
  { w with spacing := sp }

/-- A token of a parsed format template: literal text, or a placeholder key
stored with its braces (the value mappings the blocks build use keys like
"{average}"). Modelled from the spec: `crate::util::FormatTemplate` is not
among the provided sources; the spec describes a parsed alternation of
literal and placeholder segments. -/
inductive FmtToken where
  | lit (s : String)
  | placeholder (key : String)
  deriving DecidableEq

/-- A parsed format template, immutable after construction.
Modelled from the spec: an ordered sequence of literal-text and
placeholder segments (`crate::util::FormatTemplate`). -/
structure FormatTemplate where
  tokens : List FmtToken
  deriving DecidableEq

/-- First value stored under a key in an association-list mapping. -/
def lookupValue (values : List (String × String)) (key : String) : Option String :=
  (values.find? (fun kv => kv.1 == key)).map (fun kv => kv.2)

/-- Renders a parsed template against a static key-to-value mapping.
Modelled from the spec: literals are concatenated verbatim, each placeholder
is substituted with its mapped value, and referencing a placeholder the
mapping lacks is a render error (`FormatTemplate::render_static_str`). -/
def renderTokens (values : List (String × String)) :
    List FmtToken → String → Except String String
  | [], acc => .ok acc
  | .lit s :: toks, acc => renderTokens values toks (acc ++ s)
  | .placeholder key :: toks, acc =>
    match lookupValue values key with
    | some v => renderTokens values toks (acc ++ v)
    | none => .error "failed to render format into string"

def FormatTemplate.render_static_str (t : FormatTemplate)
    (values : List (String × String)) : Except String String :=
  renderTokens values t.tokens ""

/-- The only error the render step ever produces is the missing-placeholder
render error. -/
theorem renderTokens_error (values : List (String × String))
    (toks : List FmtToken) (acc e : String)
    (h : renderTokens values toks acc = .error e) :
    e = "failed to render format into string" := by
  induction toks generalizing acc with
  | nil => simp [renderTokens] at h
  | cons tok toks ih =>
    cases tok with
    | lit s =>
      simp only [renderTokens] at h
      exact ih _ h
    | placeholder key =>
      simp only [renderTokens] at h
      cases hl : lookupValue values key with
      | some v => rw [hl] at h; exact ih _ h
      | none =>
        rw [hl] at h
        injection h with h'
        exact h'.symm

/-- The interval a block returns from update, `crate::blocks::Update`,
modelled as whole seconds. -/
abbrev Update := Nat

/-- An input event, `crate::input::I3BarEvent`: optional target name and the
button pressed. -/
structure I3BarEvent where
  name : Option String
  button : MouseButton
  deriving DecidableEq

/-- The JSON value stored under one sensor input name: either it deserializes
as a flat map of sub-field name to numeric reading (`InputReadings` in the
source), or it has some other JSON shape (for example the "Adapter" string),
which the update loop silently skips. Readings are modelled as rationals. -/
inductive SensorValue where
  | readings (values : List (String × Rat))
  | other
  deriving DecidableEq

/-- Parsed `sensors -j` output, `SensorsOutput` in the source: chip name to
map of input name to value, maps modelled as association lists. -/
abbrev SensorsOutput := List (String × List (String × SensorValue))

/-- Floor of a rational as numerator floor-divided by denominator (kept
executable by the kernel; proved equal to `Int.floor` below). -/
def ratFloor (q : Rat) : Int :=
  q.num.fdiv q.den

/-- Ceiling of a rational, as negated floor of the negation. -/
def ratCeil (q : Rat) : Int :=
  -ratFloor (-q)

/-- Addition of rationals in executable form (proved equal to `+` below;
the library's `Rat.add` is sealed against kernel reduction). -/
def ratAdd (a b : Rat) : Rat :=
  mkRat (a.num * b.den + b.num * a.den) (a.den * b.den)

/-- Subtraction of rationals in executable form (proved equal to `-`
below). -/
def ratSub (a b : Rat) : Rat :=
  mkRat (a.num * b.den - b.num * a.den) (a.den * b.den)

/-- Division of rationals in executable form (proved equal to `/` below). -/
def ratDiv (a b : Rat) : Rat :=
  Rat.divInt (a.num * b.den) (a.den * b.num)

/-- Truncation toward zero: the semantics of Rust's `as i64` cast on a
finite float value. -/
def truncQ (q : Rat) : Int :=
  if 0 ≤ q then ratFloor q else ratCeil q

/-- Rounding half away from zero: the semantics of Rust's `f64::round`. -/
def roundHalfAway (q : Rat) : Int :=
  if 0 ≤ q then ratFloor (ratAdd q (mkRat 1 2)) else ratCeil (ratSub q (mkRat 1 2))

theorem ratFloor_eq_floor (q : Rat) : ratFloor q = ⌊q⌋ := by
  unfold ratFloor
  rw [Int.fdiv_eq_ediv _ (Int.natCast_nonneg _)]
  exact Rat.floor_def.symm

theorem ratCeil_eq_ceil (q : Rat) : ratCeil q = ⌈q⌉ := by
  unfold ratCeil
  rw [ratFloor_eq_floor, Int.floor_neg, neg_neg]

theorem ratAdd_eq_add (a b : Rat) : ratAdd a b = a + b :=
  (Rat.add_def' a b).symm

theorem ratSub_eq_sub (a b : Rat) : ratSub a b = a - b :=
  (Rat.sub_def' a b).symm

theorem ratDiv_eq_div (a b : Rat) : ratDiv a b = a / b := by
  rw [ratDiv, Rat.div_def']

theorem truncQ_eq (q : Rat) : truncQ q = if 0 ≤ q then ⌊q⌋ else ⌈q⌉ := by
  simp [truncQ, ratFloor_eq_floor, ratCeil_eq_ceil]

theorem roundHalfAway_eq (q : Rat) :
    roundHalfAway q = if 0 ≤ q then ⌊q + 1 / 2⌋ else ⌈q - 1 / 2⌉ := by
  have h : (mkRat 1 2 : Rat) = 1 / 2 := by norm_num [Rat.mkRat_eq_div]
  simp [roundHalfAway, h, ratAdd_eq_add, ratSub_eq_sub, ratFloor_eq_floor,
    ratCeil_eq_ceil]

/-- Rust's `str::starts_with`, on the character list of the string (kept
executable by the kernel). -/
def strHasPrefix (s p : String) : Bool :=
  p.toList.isPrefixOf s.toList

/-- Rust's `str::ends_with`, on the character list of the string (kept
executable by the kernel). -/
def strHasSuffix (s p : String) : Bool :=
  p.toList.reverse.isPrefixOf s.toList.reverse

/-- The block state `Temperature` of the source, field for field. -/
structure Temperature where
  text : ButtonWidget
  output : String
  collapsed : Bool
  id : String
  update_interval : Nat
  maximum_good : Int
  maximum_idle : Int
  maximum_info : Int
  maximum_warning : Int
  format : FormatTemplate
  chip : Option String
  inputs : Option (List String)
  deriving DecidableEq

/-- One iteration of the sub-field loop in `Temperature::update` (source
lines 181–192): only names that start with "temp" and end with "input" are
considered; a value strictly inside (−101, 151) is truncated toward zero and
appended to the collected list, otherwise the offending value is appended to
the list of emitted recoverable-error notices. -/
def processReading (acc : List Int × List Rat) (nv : String × Rat) :
    List Int × List Rat :=
  if !(strHasPrefix nv.1 "temp") || !(strHasSuffix nv.1 "input") then acc
  else if (-101 : Rat) < nv.2 ∧ nv.2 < 151 then (acc.1 ++ [truncQ nv.2], acc.2)
  else (acc.1, acc.2 ++ [nv.2])

/-- Interpretation of one sensor input's value in `Temperature::update`: a
numeric sub-field map is folded through `processReading`; any other shape is
skipped (the "probably the Adapter key" branch). -/
def processInputValues (acc : List Int × List Rat) (v : SensorValue) :
    List Int × List Rat :=
  match v with
  | .readings values => values.foldl processReading acc
  | .other => acc

/-- One iteration of the input loop in `Temperature::update` (source lines
169–193): inputs absent from a configured whitelist are skipped before any
interpretation is attempted. -/
def processInput (whitelist : Option (List String)) (acc : List Int × List Rat)
    (inp : String × SensorValue) : List Int × List Rat :=
  match whitelist with
  | some wl => if !(wl.contains inp.1) then acc else processInputValues acc inp.2
  | none => processInputValues acc inp.2

/-- The whole collection pass of `Temperature::update` (source lines
167–194): fold over every chip and every input, returning the collected
integer temperatures together with the values for which an out-of-range
notice was emitted. -/
def collectTemperatures (whitelist : Option (List String))
    (parsed : SensorsOutput) : List Int × List Rat :=
  parsed.foldl (fun acc chip => chip.2.foldl (processInput whitelist) acc) ([], [])

/-- The severity ladder of `Temperature::update` (source lines 217–223):
first-match-wins over the four configured maxima, `Critical` when none
matches. -/
def classifyTemp (m good idle info warning : Int) : State :=
  if m ≤ good then .Good
  else if m ≤ idle then .Idle
  else if m ≤ info then .Info
  else if m ≤ warning then .Warning
  else .Critical

/-- The rounded arithmetic mean computed in `Temperature::update` (source
lines 205–206): integer sum divided as floats, rounded. -/
def tempAverage (temps : List Int) : Int :=
  roundHalfAway (ratDiv (temps.sum : Rat) (temps.length : Rat))

/-- The branch of `Temperature::update` over the collected readings (source
lines 196–228). Returns the state after the cycle paired with the cycle's
result, keeping the source's error structure: the fallible max and min
lookups, the fallible format render, and the returned interval. Every error
path leaves the state untouched, as each `?` in the source fires before any
field assignment. -/
def Temperature.applyReadings (s : Temperature) (temperatures : List Int) :
    Temperature × Except String (Option Update) :=
  if !temperatures.isEmpty then
    match temperatures.max? with
    | none => (s, .error "failed to get max temperature")
    | some mx =>
      match temperatures.min? with
      | none => (s, .error "failed to get min temperature")
      | some mn =>
        let avg := tempAverage temperatures
        let values := [("{average}", toString avg), ("{min}", toString mn),
                       ("{max}", toString mx)]
        match s.format.render_static_str values with
        | .error e => (s, .error e)
        | .ok rendered =>
          let s1 := { s with output := rendered }
          let s2 := if !s1.collapsed
                    then { s1 with text := s1.text.set_text s1.output }
                    else s1
          let st := classifyTemp mx s2.maximum_good s2.maximum_idle
                      s2.maximum_info s2.maximum_warning
          let s3 := { s2 with text := s2.text.set_state st }
          (s3, .ok (some s3.update_interval))
  else (s, .ok (some s.update_interval))

/-- The aggregation and rendering tail applied to this cycle's collected
readings (the body of `Temperature::update` from line 167 on). -/
def Temperature.updateWithParsed (s : Temperature) (parsed : SensorsOutput) :
    Temperature × Except String (Option Update) :=
  s.applyReadings (collectTemperatures s.inputs parsed).1

/-- Result of invoking the external `sensors` command: captured stdout on
success, or the OS error's display string on a launch failure. -/
inductive CommandResult where
  | output (stdout : String)
  | launchFailure (message : String)
  deriving DecidableEq

/-- The string `Temperature::update` hands to the JSON parser (source lines
158–162): trimmed stdout on success, substituted with the error message on a
launch failure (`unwrap_or_else(|e| e.to_string())`). -/
def commandText (r : CommandResult) : String :=
  match r with
  | .output o => o.trim
  | .launchFailure e => e

/-- Whole `Temperature::update` cycle (source lines 153–229). JSON parsing is
an external collaborator passed as a function returning `none` on malformed
input; its failure is the fatal "sensors output is invalid" error, raised
before any widget mutation. -/
def Temperature.update (parse : String → Option SensorsOutput)
    (s : Temperature) (r : CommandResult) :
    Temperature × Except String (Option Update) :=
  match parse (commandText r) with
  | none => (s, .error "sensors output is invalid")
  | some parsed => s.updateWithParsed parsed

/-- State change of `Temperature::click` (source lines 235–250): a left click
whose target name equals the block id toggles the collapsed flag, blanking
text and hiding spacing when collapsing, restoring the stored output and
normal spacing when expanding; every other event is a no-op. No sensor data
is consulted. -/
def Temperature.clickStep (s : Temperature) (e : I3BarEvent) : Temperature :=
  match e.name with
  | some name =>
    if name = s.id ∧ e.button = .Left then
      let c := !s.collapsed
      if c then
        { s with collapsed := c,
                 text := (s.text.set_text "").set_spacing .Hidden }
      else
        { s with collapsed := c,
                 text := (s.text.set_text s.output).set_spacing .Normal }
    else s
  | none => s

/-- `Temperature::click` mutates the state via `clickStep` and always returns
`Ok(())` (source line 249). -/
def Temperature.click (s : Temperature) (e : I3BarEvent) :
    Temperature × Except String Unit :=
  (s.clickStep e, .ok ())

/-- The block state `Time` of the source, field for field; timezone and
locale are kept as the configured strings (their tables are external). -/
structure Time where
  time : ButtonWidget
  id : String
  update_interval : Nat
  format : String
  on_click : Option String
  timezone : Option String
  locale : Option String
  deriving DecidableEq

/-- The configuration snapshot `TimeConfig` of the source. -/
structure TimeConfig where
  format : String
  interval : Nat
  on_click : Option String
  timezone : Option String
  locale : Option String
  deriving DecidableEq

/-- `Time::new` (source lines 82–99): builds the block unconditionally from
the configuration — no locale or format validation happens here and the
constructor never fails. Process-unique id generation (`pseudo_uuid`) is
external; the id is passed in. -/
def Time.new (cfg : TimeConfig) (id : String) : Except String Time :=
  .ok { id
      , format := cfg.format
      , time := ((ButtonWidget.new id).with_text "").with_icon "time"
      , update_interval := cfg.interval
      , on_click := cfg.on_click
      , timezone := cfg.timezone
      , locale := cfg.locale }

/-- `Time::update` (source lines 103–124). The locale table and the strftime
renderer are external collaborators: `localeOf` models chrono's
`Locale::try_from` (`none` exactly for an invalid locale string) and `fmt`
models formatting the current instant for a timezone, optional locale and
format string. An invalid locale is the "invalid locale" error, raised
before any widget mutation; otherwise the widget text is set to the
formatted instant and the configured interval is returned. -/
def Time.update (localeOf : String → Option String)
    (fmt : Option String → Option String → String → String)
    (s : Time) : Time × Except String (Option Update) :=
  match s.locale with
  | some l =>
    match localeOf l with
    | none => (s, .error "invalid locale")
    | some loc =>
      ({ s with time := s.time.set_text (fmt s.timezone (some loc) s.format) },
       .ok (some s.update_interval))
  | none =>
    ({ s with time := s.time.set_text (fmt s.timezone none s.format) },
     .ok (some s.update_interval))

/-- `Time::click` (source lines 126–138): a left click whose target name
equals the block id spawns the configured command, if any; spawning is
external, modelled by `spawn`, and its failure is the "could not spawn
child" error. The widget is never mutated. -/
def Time.click (spawn : String → Except String Unit) (s : Time)
    (e : I3BarEvent) : Time × Except String Unit :=
  match e.name with
  | some name =>
    if name = s.id then
      match e.button with
      | .Left =>
        match s.on_click with
        | some cmd =>
          match spawn cmd with
          | .ok _ => (s, .ok ())
          | .error _ => (s, .error "could not spawn child")
        | none => (s, .ok ())
      | _ => (s, .ok ())
    else (s, .ok ())
  | none => (s, .ok ())

/-- A value in the source configuration mapping (the TOML shapes the two
config structs consume): integers, strings, booleans, string lists. -/
inductive ConfigValue where
  | num (n : Int)
  | str (s : String)
  | boolean (b : Bool)
  | strList (l : List String)
  deriving DecidableEq

/-- The configuration snapshot `TemperatureConfig` of the source. -/
structure TemperatureConfig where
  interval : Nat
  collapsed : Bool
  good : Int
  idle : Int
  info : Int
  warning : Int
  format : String
  chip : Option String
  inputs : Option (List String)
  deriving DecidableEq

/-- The enumerated field names of `TemperatureConfig`. -/
def temperatureFieldNames : List String :=
  ["interval", "collapsed", "good", "idle", "info", "warning", "format",
   "chip", "inputs"]

/-- The enumerated field names of `TimeConfig`. -/
def timeFieldNames : List String :=
  ["format", "interval", "on_click", "timezone", "locale"]

/-- First value stored under a key in a configuration mapping. -/
def getField (input : List (String × ConfigValue)) (key : String) :
    Option ConfigValue :=
  (input.find? (fun kv => kv.1 == key)).map (fun kv => kv.2)

/-- Whether a value has the type a `TemperatureConfig` field expects
(a non-negative number of seconds for `interval`, per
`deserialize_duration`). -/
def temperatureFieldType (k : String) (v : ConfigValue) : Bool :=
  match k, v with
  | "interval", .num n => decide (0 ≤ n)
  | "collapsed", .boolean _ => true
  | "good", .num _ => true
  | "idle", .num _ => true
  | "info", .num _ => true
  | "warning", .num _ => true
  | "format", .str _ => true
  | "chip", .str _ => true
  | "inputs", .strList _ => true
  | _, _ => false

/-- Whether a value has the type a `TimeConfig` field expects. -/
def timeFieldType (k : String) (v : ConfigValue) : Bool :=
  match k, v with
  | "format", .str _ => true
  | "interval", .num n => decide (0 ≤ n)
  | "on_click", .str _ => true
  | "timezone", .str _ => true
  | "locale", .str _ => true
  | _, _ => false

/-- A temperature configuration entry is valid when its key is one of the
enumerated fields and its value is well typed for that field. -/
def validTemperatureEntry (kv : String × ConfigValue) : Bool :=
  temperatureFieldNames.contains kv.1 && temperatureFieldType kv.1 kv.2

/-- A time configuration entry is valid when its key is one of the
enumerated fields and its value is well typed for that field. -/
def validTimeEntry (kv : String × ConfigValue) : Bool :=
  timeFieldNames.contains kv.1 && timeFieldType kv.1 kv.2

/-- A numeric field read as a non-negative count, with its default. -/
def getNatField (input : List (String × ConfigValue)) (key : String)
    (dflt : Nat) : Nat :=
  match getField input key with
  | some (.num n) => n.toNat
  | _ => dflt

/-- A numeric field read as an integer, with its default. -/
def getIntField (input : List (String × ConfigValue)) (key : String)
    (dflt : Int) : Int :=
  match getField input key with
  | some (.num n) => n
  | _ => dflt

/-- A boolean field, with its default. -/
def getBoolField (input : List (String × ConfigValue)) (key : String)
    (dflt : Bool) : Bool :=
  match getField input key with
  | some (.boolean b) => b
  | _ => dflt

/-- A string field, with its default. -/
def getStrField (input : List (String × ConfigValue)) (key : String)
    (dflt : String) : String :=
  match getField input key with
  | some (.str s) => s
  | _ => dflt

/-- An optional string field, `none` when omitted. -/
def getOptStrField (input : List (String × ConfigValue)) (key : String) :
    Option String :=
  match getField input key with
  | some (.str s) => some s
  | _ => none

/-- An optional string-list field, `none` when omitted. -/
def getStrListField (input : List (String × ConfigValue)) (key : String) :
    Option (List String) :=
  match getField input key with
  | some (.strList l) => some l
  | _ => none

/-- Deserialization of `TemperatureConfig` from a source mapping, modelling
the serde derive on the source struct: `deny_unknown_fields` makes any entry
outside the enumerated field set a hard error, and each field carries its
own independent `serde(default = ...)`, used exactly when the field is
omitted. Defaults are the source's: 5 s interval, collapsed, thresholds
20/45/60/80, the default format string, no chip filter, no whitelist. -/
def deserializeTemperatureConfig (input : List (String × ConfigValue)) :
    Except String TemperatureConfig :=
  if input.all validTemperatureEntry then
    .ok { interval := getNatField input "interval" 5
        , collapsed := getBoolField input "collapsed" true
        , good := getIntField input "good" 20
        , idle := getIntField input "idle" 45
        , info := getIntField input "info" 60
        , warning := getIntField input "warning" 80
        , format := getStrField input "format" "{average}° avg, {max}° max"
        , chip := getOptStrField input "chip"
        , inputs := getStrListField input "inputs" }
  else .error "invalid temperature configuration"

/-- Deserialization of `TimeConfig` from a source mapping, modelling the
serde derive on the source struct (`deny_unknown_fields`, each field with
its independent default: the "%a %d/%m %R" format, 5 s interval, no
on-click command, no timezone override, no locale). -/
def deserializeTimeConfig (input : List (String × ConfigValue)) :
    Except String TimeConfig :=
  if input.all validTimeEntry then
    .ok { format := getStrField input "format" "%a %d/%m %R"
        , interval := getNatField input "interval" 5
        , on_click := getOptStrField input "on_click"
        , timezone := getOptStrField input "timezone"
        , locale := getOptStrField input "locale" }
  else .error "invalid time configuration"

/-- Whether a cycle result is an error. -/
def exceptIsError {α : Type} (r : Except String α) : Bool :=
  match r with
  | .ok _ => false
  | .error _ => true

/-- `Temperature::new` (source lines 119–146): the id and the parsed format
template are external inputs (id generation and `FormatTemplate::from_string`
live outside the provided sources). The widget starts with the thermometer
icon and spacing matching the configured collapsed flag; the stored output
starts empty. -/
def Temperature.new (cfg : TemperatureConfig) (id : String)
    (fmt : FormatTemplate) : Temperature :=
  { update_interval := cfg.interval
  , text := ((ButtonWidget.new id).with_icon "thermometer").with_spacing
      (if cfg.collapsed then .Hidden else .Normal)
  , output := ""
  , collapsed := cfg.collapsed
  , id
  , maximum_good := cfg.good
  , maximum_idle := cfg.idle
  , maximum_info := cfg.info
  , maximum_warning := cfg.warning
  , format := fmt
  , chip := cfg.chip
  , inputs := cfg.inputs }

/-- The display invariant every reachable `Temperature` state satisfies:
when collapsed the widget shows empty text with hidden spacing, when
expanded it shows the stored output with normal spacing. Established at
construction and preserved by update and click. -/
def TempDisplayInv (s : Temperature) : Prop :=
  s.text.text = (if s.collapsed then "" else s.output)
  ∧ s.text.spacing = (if s.collapsed then Spacing.Hidden else Spacing.Normal)

/-- The parse of the default temperature format string
"{average}° avg, {max}° max", per the template syntax of the spec. -/
def defaultTempTemplate : FormatTemplate :=
  ⟨[.placeholder "{average}", .lit "° avg, ", .placeholder "{max}",
    .lit "° max"]⟩

/-- A concrete temperature configuration: all defaults except expanded
(collapsed off) so update sets the visible text. -/
def exampleTempConfig : TemperatureConfig :=
  { interval := 5, collapsed := false, good := 20, idle := 45, info := 60,
    warning := 80, format := "{average}° avg, {max}° max", chip := none,
    inputs := none }

/-- A concrete freshly constructed temperature block. -/
def exampleTemperature : Temperature :=
  Temperature.new exampleTempConfig "id0" defaultTempTemplate

/-- A concrete parsed sensors output: one chip with an "Adapter" entry and
three temperature inputs reading 18.5, 42 and 61.8 degrees. -/
def exampleSensors : SensorsOutput :=
  [("chip0",
    [("Adapter", .other),
     ("temp1", .readings [("temp1_input", mkRat 37 2)]),
     ("temp2", .readings [("temp2_input", mkRat 42 1)]),
     ("temp3", .readings [("temp3_input", mkRat 309 5)])])]

/-- A JSON parser result for strings that are not valid sensors output,
such as an OS error message. -/
def noJson : String → Option SensorsOutput := fun _ => none

/-- C5: the severity ladder uses non-strict comparison at every rung: a
maximum reading exactly equal to a threshold maps to the rung's lower
(less urgent) state, never the higher one — with ascending thresholds,
equality with good/idle/info/warning yields exactly Good/Idle/Info/Warning,
and Critical is reached exactly for readings strictly above the warning
maximum. -/
theorem classifyTemp_boundary (good idle info warning : Int)
    (h1 : good < idle) (h2 : idle < info) (h3 : info < warning) :
    classifyTemp good good idle info warning = .Good ∧
    classifyTemp idle good idle info warning = .Idle ∧
    classifyTemp info good idle info warning = .Info ∧
    classifyTemp warning good idle info warning = .Warning ∧
    (∀ m : Int, classifyTemp m good idle info warning = .Critical ↔ warning < m) := by
  refine ⟨?_, ?_, ?_, ?_, fun m => ?_⟩
  · unfold classifyTemp; rw [if_pos le_rfl]
  · unfold classifyTemp; rw [if_neg (by omega), if_pos le_rfl]
  · unfold classifyTemp; rw [if_neg (by omega), if_neg (by omega), if_pos le_rfl]
  · unfold classifyTemp
    rw [if_neg (by omega), if_neg (by omega), if_neg (by omega), if_pos le_rfl]
  · unfold classifyTemp
    constructor
    · intro hc
      split_ifs at hc
      all_goals first | exact State.noConfusion hc | omega
    · intro hm
      rw [if_neg (by omega), if_neg (by omega), if_neg (by omega),
        if_neg (by omega)]

/-- Witness for C5 at the default thresholds 20, 45, 60, 80. -/
theorem classifyTemp_boundary_witness :
    classifyTemp 20 20 45 60 80 = .Good ∧
    classifyTemp 45 20 45 60 80 = .Idle ∧
    classifyTemp 60 20 45 60 80 = .Info ∧
    classifyTemp 80 20 45 60 80 = .Warning ∧
    (classifyTemp 81 20 45 60 80 = .Critical ↔ (80 : Int) < 81) := by
  have h := classifyTemp_boundary 20 45 60 80 (by decide) (by decide) (by decide)
  exact ⟨h.1, h.2.1, h.2.2.1, h.2.2.2.1, h.2.2.2.2 81⟩

/-- C1: for a sub-field whose name starts with "temp" and ends with "input",
a value strictly inside (−101, 151) has its truncation toward zero appended
to (hence included in) the collected aggregate with no notice, while a value
outside that interval leaves the aggregate unchanged and appends an
out-of-range notice. `processReading` is the per-sub-field step of the
collection loop in `Temperature::update`. -/
theorem processReading_range (acc : List Int × List Rat) (name : String)
    (value : Rat) (hpre : strHasPrefix name "temp" = true)
    (hsuf : strHasSuffix name "input" = true) :
    ((-101 : Rat) < value ∧ value < 151 →
      processReading acc (name, value) = (acc.1 ++ [truncQ value], acc.2) ∧
      truncQ value ∈ (processReading acc (name, value)).1) ∧
    (¬((-101 : Rat) < value ∧ value < 151) →
      processReading acc (name, value) = (acc.1, acc.2 ++ [value])) := by
  refine ⟨fun h => ?_, fun h => ?_⟩
  · have he : processReading acc (name, value) = (acc.1 ++ [truncQ value], acc.2) := by
      simp [processReading, hpre, hsuf, h]
    exact ⟨he, by rw [he]; simp⟩
  · simp [processReading, hpre, hsuf, h]

/-- Witness for C1: an in-range reading 18.5 is truncated and collected, an
out-of-range reading 200 is excluded and noticed. -/
theorem processReading_range_witness :
    processReading ([5], []) ("temp1_input", mkRat 37 2) = ([5, 18], []) ∧
    processReading ([5], []) ("temp1_input", mkRat 200 1) = ([5], [mkRat 200 1]) := by
  have h1 := processReading_range ([5], []) "temp1_input" (mkRat 37 2)
    (by decide) (by decide)
  have h2 := processReading_range ([5], []) "temp1_input" (mkRat 200 1)
    (by decide) (by decide)
  refine ⟨?_, ?_⟩
  · rw [(h1.1 (by decide)).1]; decide
  · rw [h2.2 (by decide)]; decide

/-- C4: on readings collected as {18, 42, 61} with default thresholds, the
average is round(121/3) = 40, the minimum 18, the maximum 61, and the
severity set on the widget is Warning (61 is not ≤ 60 but is ≤ 80); the
rendered default-format output is "40° avg, 61° max". -/
theorem temperature_example_aggregates :
    (collectTemperatures exampleTemperature.inputs exampleSensors).1 = [18, 42, 61] ∧
    tempAverage [18, 42, 61] = 40 ∧
    ([18, 42, 61] : List Int).min? = some 18 ∧
    ([18, 42, 61] : List Int).max? = some 61 ∧
    classifyTemp 61 20 45 60 80 = .Warning ∧
    (exampleTemperature.updateWithParsed exampleSensors).1.text.state = .Warning ∧
    (exampleTemperature.updateWithParsed exampleSensors).1.output = "40° avg, 61° max" := by
  decide

/-- C2: when a cycle collects zero valid readings, the whole block state —
in particular the widget's text and severity — is left exactly as it was,
and the cycle still returns Some of the configured interval. -/
theorem temperature_update_empty_frame (s : Temperature) (parsed : SensorsOutput)
    (h : (collectTemperatures s.inputs parsed).1 = []) :
    s.updateWithParsed parsed = (s, .ok (some s.update_interval)) := by
  simp [Temperature.updateWithParsed, Temperature.applyReadings, h]

/-- Witness for C2: the empty sensors output collects nothing and the
example block passes through unchanged with its 5 second interval. -/
theorem temperature_update_empty_frame_witness :
    exampleTemperature.updateWithParsed [] = (exampleTemperature, .ok (some 5)) := by
  exact temperature_update_empty_frame exampleTemperature [] (by decide)

/-- C10: when launching the sensors command fails, the OS error message is
substituted for the command output and fed to the JSON parser, so whenever
that message is not valid sensors JSON the cycle returns the fatal
"sensors output is invalid" parse error — not a distinct spawn error — and
the block state is returned unchanged. -/
theorem temperature_update_launch_failure (parse : String → Option SensorsOutput)
    (s : Temperature) (msg : String) (h : parse msg = none) :
    Temperature.update parse s (.launchFailure msg) =
      (s, .error "sensors output is invalid") := by
  unfold Temperature.update
  simp [commandText, h]

/-- Witness for C10 on a typical OS launch-failure message. -/
theorem temperature_update_launch_failure_witness :
    Temperature.update noJson exampleTemperature
      (.launchFailure "No such file or directory (os error 2)") =
      (exampleTemperature, .error "sensors output is invalid") :=
  temperature_update_launch_failure noJson exampleTemperature
    "No such file or directory (os error 2)" rfl

/-- The aggregation tail of the update either succeeds with the configured
interval or fails with the render error — never with the max/min errors. -/
theorem temperature_applyReadings_snd (s : Temperature) (temps : List Int) :
    (s.applyReadings temps).2 = .ok (some s.update_interval) ∨
    (s.applyReadings temps).2 = .error "failed to render format into string" := by
  unfold Temperature.applyReadings
  split
  · split
    · next heq =>
      rw [List.max?_eq_none_iff] at heq
      simp [heq] at *
    · split
      · next heq =>
        rw [List.min?_eq_none_iff] at heq
        simp [heq] at *
      · dsimp only
        split
        · next e he =>
          right
          rw [renderTokens_error _ _ _ _ he]
        · left
          split <;> rfl
  · left; rfl

/-- C9: the error branches attached to taking the maximum and minimum of the
collected readings are unreachable — a non-empty list always has a max and a
min, and no update cycle, whatever the command result and parsed output,
ever returns the "failed to get max temperature" or "failed to get min
temperature" errors. -/
theorem temperature_update_no_minmax_error (parse : String → Option SensorsOutput)
    (s : Temperature) (r : CommandResult) :
    (∀ l : List Int, l ≠ [] → l.max?.isSome = true ∧ l.min?.isSome = true) ∧
    (Temperature.update parse s r).2 ≠ .error "failed to get max temperature" ∧
    (Temperature.update parse s r).2 ≠ .error "failed to get min temperature" := by
  refine ⟨fun l hl => ⟨?_, ?_⟩, ?_, ?_⟩
  · cases h : l.max? with
    | none => exact absurd (List.max?_eq_none_iff.mp h) hl
    | some v => rfl
  · cases h : l.min? with
    | none => exact absurd (List.min?_eq_none_iff.mp h) hl
    | some v => rfl
  all_goals
    unfold Temperature.update
    cases hp : parse (commandText r) with
    | none =>
      intro hc
      injection hc with h'
      revert h'
      decide
    | some parsed =>
      intro hc
      simp only [Temperature.updateWithParsed] at hc
      rcases temperature_applyReadings_snd s (collectTemperatures s.inputs parsed).1
        with h | h
      · rw [h] at hc
        exact Except.noConfusion hc
      · rw [h] at hc
        injection hc with h'
        revert h'
        decide

/-- A non-matching click leaves the Temperature state untouched. -/
theorem temperature_clickStep_nonmatching (s : Temperature) (e : I3BarEvent)
    (hs : e.name ≠ some s.id) : s.clickStep e = s := by
  unfold Temperature.clickStep
  cases he : e.name with
  | none => rfl
  | some n =>
    dsimp only
    rw [if_neg]
    intro hc
    exact hs (by rw [he, hc.1])

/-- A non-matching click leaves the Time state untouched and reports Ok
without consulting the spawner. -/
theorem time_click_nonmatching (spawn : String → Except String Unit)
    (t : Time) (e : I3BarEvent) (ht : e.name ≠ some t.id) :
    Time.click spawn t e = (t, .ok ()) := by
  unfold Time.click
  cases he : e.name with
  | none => rfl
  | some n =>
    dsimp only
    rw [if_neg]
    intro hc
    exact ht (by rw [he, hc])

/-- C7: a click event whose target identity differs from the block's own
identity leaves both the Temperature block and the Time block entirely
unchanged and returns Ok, never an error. -/
theorem click_nonmatching_noop (s : Temperature) (t : Time)
    (spawn : String → Except String Unit) (e : I3BarEvent)
    (hs : e.name ≠ some s.id) (ht : e.name ≠ some t.id) :
    Temperature.click s e = (s, .ok ()) ∧ Time.click spawn t e = (t, .ok ()) := by
  constructor
  · unfold Temperature.click
    rw [temperature_clickStep_nonmatching s e hs]
  · exact time_click_nonmatching spawn t e ht

/-- A spawner that always fails, demonstrating that non-matching events do
not consult it. -/
def failSpawn : String → Except String Unit := fun _ => .error "spawn failure"

/-- A concrete time configuration with all defaults. -/
def exampleTimeConfig : TimeConfig :=
  { format := "%a %d/%m %R", interval := 5, on_click := none,
    timezone := none, locale := none }

/-- A concrete freshly constructed time block. -/
def exampleTime : Time :=
  { time := ((ButtonWidget.new "id1").with_text "").with_icon "time"
  , id := "id1", update_interval := 5, format := "%a %d/%m %R"
  , on_click := none, timezone := none, locale := none }

/-- Witness for C7 on concrete blocks and a mismatched event name. -/
theorem click_nonmatching_noop_witness :
    Temperature.click exampleTemperature ⟨some "other", .Left⟩ =
      (exampleTemperature, .ok ()) ∧
    Time.click failSpawn exampleTime ⟨some "other", .Left⟩ =
      (exampleTime, .ok ()) :=
  click_nonmatching_noop exampleTemperature exampleTime failSpawn
    ⟨some "other", .Left⟩ (by decide) (by decide)

/-- C6: on any state satisfying the display invariant (which holds for every
reachable state), two left clicks targeting the block's own identity restore
the block exactly: the original collapsed flag, widget text and spacing —
and no sensor poll is involved, the click path consuming no sensor data. -/
theorem temperature_double_click (s : Temperature) (e : I3BarEvent)
    (hn : e.name = some s.id) (hb : e.button = .Left) (hinv : TempDisplayInv s) :
    Temperature.clickStep (Temperature.clickStep s e) e = s := by
  obtain ⟨htext, hspacing⟩ := hinv
  obtain ⟨en, eb⟩ := e
  simp only at hn hb
  subst hb
  rcases s with ⟨⟨wid, wicon, wtext, wstate, wspacing⟩, out, coll, id, ui, mg,
    midle, minfo, mw, fmt, chip, inps⟩
  simp only at hn htext hspacing
  subst hn
  cases coll <;>
    simp_all [Temperature.clickStep, ButtonWidget.set_text,
      ButtonWidget.set_spacing]

/-- Witness for C6 on the expanded example block. -/
theorem temperature_double_click_witness :
    Temperature.clickStep
      (Temperature.clickStep exampleTemperature ⟨some "id0", .Left⟩)
      ⟨some "id0", .Left⟩ = exampleTemperature :=
  temperature_double_click exampleTemperature ⟨some "id0", .Left⟩
    (by decide) rfl ⟨by decide, by decide⟩

/-- A time configuration whose locale string is not a valid locale. -/
def badTimeConfig : TimeConfig :=
  { format := "%a %d/%m %R", interval := 5, on_click := none,
    timezone := none, locale := some "xx-INVALID" }

/-- The locale table on strings it does not contain: chrono's
`Locale::try_from` rejects "xx-INVALID" and every other unknown name. -/
def noLocale : String → Option String := fun _ => none

/-- A strftime renderer stub for concrete runs (the rendered text is
irrelevant to the properties below). -/
def constFmt : Option String → Option String → String → String :=
  fun _ _ _ => ""

/-- The block state `Time::new` builds from `badTimeConfig`. -/
def badTime : Time :=
  { time := ((ButtonWidget.new "id1").with_text "").with_icon "time"
  , id := "id1", update_interval := 5, format := "%a %d/%m %R"
  , on_click := none, timezone := none, locale := some "xx-INVALID" }

/-- C3 counterexample: with a configuration carrying the invalid locale
string "xx-INVALID", construction still succeeds — `Time::new` performs no
locale validation and never fails — and the resulting live block's update
then fails with the "invalid locale" error. Both halves of the claim
(construction fails; a live block's update never errors) are false on the
code. -/
theorem time_invalid_locale_counterexample :
    Time.new badTimeConfig "id1" = .ok badTime ∧
    exceptIsError (Time.new badTimeConfig "id1") = false ∧
    (Time.update noLocale constFmt badTime).2 = .error "invalid locale" :=
  ⟨rfl, rfl, rfl⟩

/-- C3 amended: constructing the Time block never fails whatever the
configured locale; the invalid-locale check happens inside update instead,
which fails with the "invalid locale" error exactly when the configured
locale string is invalid, leaving the state untouched — and for a block
whose locale is absent or valid, update never errors and always returns
Some of the configured interval. -/
theorem time_construction_and_update (cfg : TimeConfig) (i : String)
    (localeOf : String → Option String)
    (fmt : Option String → Option String → String → String) (s : Time) :
    exceptIsError (Time.new cfg i) = false ∧
    (∀ l, s.locale = some l → localeOf l = none →
      Time.update localeOf fmt s = (s, .error "invalid locale")) ∧
    ((s.locale = none ∨ ∃ l loc, s.locale = some l ∧ localeOf l = some loc) →
      (Time.update localeOf fmt s).2 = .ok (some s.update_interval)) := by
  refine ⟨rfl, fun l hl hnone => ?_, fun hv => ?_⟩
  · simp [Time.update, hl, hnone]
  · rcases hv with hn | ⟨l, loc, hl, hloc⟩
    · simp [Time.update, hn]
    · simp [Time.update, hl, hloc]

/-- Witness for C3 amended: construction succeeds on the bad configuration;
its block's update errors under the empty locale table, while the
default-configured block (no locale) updates fine. -/
theorem time_construction_and_update_witness :
    exceptIsError (Time.new badTimeConfig "id1") = false ∧
    Time.update noLocale constFmt badTime = (badTime, .error "invalid locale") ∧
    (Time.update noLocale constFmt exampleTime).2 = .ok (some 5) := by
  have h1 := time_construction_and_update badTimeConfig "id1" noLocale constFmt badTime
  have h2 := time_construction_and_update badTimeConfig "id1" noLocale constFmt exampleTime
  exact ⟨h1.1, h1.2.1 "xx-INVALID" rfl rfl, h2.2.2 (Or.inl rfl)⟩

/-- The configuration produced from a source mapping providing only
`good = 99`: every other field keeps its default. -/
def tempCfg99 : TemperatureConfig :=
  { interval := 5, collapsed := true, good := 99, idle := 45, info := 60,
    warning := 80, format := "{average}° avg, {max}° max", chip := none,
    inputs := none }

/-- The configuration produced from a source mapping providing only a
locale: every other field keeps its default. -/
def timeCfgLoc : TimeConfig :=
  { format := "%a %d/%m %R", interval := 5, on_click := none,
    timezone := none, locale := some "de_DE" }

/-- C8: deserializing a source mapping containing any field name outside
the enumerated field set of `TemperatureConfig` or `TimeConfig` fails hard,
so block construction is a fail-fast error; and in every successful
deserialization, each enumerated field omitted from the input is filled
with its documented default, independently of what the other entries
provide. -/
theorem config_unknown_fields_and_defaults :
    (∀ (input : List (String × ConfigValue)) (k : String) (v : ConfigValue),
      (k, v) ∈ input → temperatureFieldNames.contains k = false →
      exceptIsError (deserializeTemperatureConfig input) = true) ∧
    (∀ (input : List (String × ConfigValue)) (k : String) (v : ConfigValue),
      (k, v) ∈ input → timeFieldNames.contains k = false →
      exceptIsError (deserializeTimeConfig input) = true) ∧
    (∀ (input : List (String × ConfigValue)) (cfg : TemperatureConfig),
      deserializeTemperatureConfig input = .ok cfg →
      (getField input "interval" = none → cfg.interval = 5) ∧
      (getField input "collapsed" = none → cfg.collapsed = true) ∧
      (getField input "good" = none → cfg.good = 20) ∧
      (getField input "idle" = none → cfg.idle = 45) ∧
      (getField input "info" = none → cfg.info = 60) ∧
      (getField input "warning" = none → cfg.warning = 80) ∧
      (getField input "format" = none → cfg.format = "{average}° avg, {max}° max") ∧
      (getField input "chip" = none → cfg.chip = none) ∧
      (getField input "inputs" = none → cfg.inputs = none)) ∧
    (∀ (input : List (String × ConfigValue)) (cfg : TimeConfig),
      deserializeTimeConfig input = .ok cfg →
      (getField input "format" = none → cfg.format = "%a %d/%m %R") ∧
      (getField input "interval" = none → cfg.interval = 5) ∧
      (getField input "on_click" = none → cfg.on_click = none) ∧
      (getField input "timezone" = none → cfg.timezone = none) ∧
      (getField input "locale" = none → cfg.locale = none)) := by
  refine ⟨?_, ?_, ?_, ?_⟩
  · intro input k v hmem hk
    cases hall : input.all validTemperatureEntry with
    | true =>
      have hkk : k ∉ temperatureFieldNames := by simpa using hk
      exact absurd (List.all_eq_true.mp hall (k, v) hmem)
        (by simp [validTemperatureEntry, hkk])
    | false => simp [deserializeTemperatureConfig, hall, exceptIsError]
  · intro input k v hmem hk
    cases hall : input.all validTimeEntry with
    | true =>
      have hkk : k ∉ timeFieldNames := by simpa using hk
      exact absurd (List.all_eq_true.mp hall (k, v) hmem)
        (by simp [validTimeEntry, hkk])
    | false => simp [deserializeTimeConfig, hall, exceptIsError]
  · intro input cfg h
    unfold deserializeTemperatureConfig at h
    split at h
    · injection h with h'
      subst h'
      exact ⟨fun hf => by simp [getNatField, hf],
             fun hf => by simp [getBoolField, hf],
             fun hf => by simp [getIntField, hf],
             fun hf => by simp [getIntField, hf],
             fun hf => by simp [getIntField, hf],
             fun hf => by simp [getIntField, hf],
             fun hf => by simp [getStrField, hf],
             fun hf => by simp [getOptStrField, hf],
             fun hf => by simp [getStrListField, hf]⟩
    · exact Except.noConfusion h
  · intro input cfg h
    unfold deserializeTimeConfig at h
    split at h
    · injection h with h'
      subst h'
      exact ⟨fun hf => by simp [getStrField, hf],
             fun hf => by simp [getNatField, hf],
             fun hf => by simp [getOptStrField, hf],
             fun hf => by simp [getOptStrField, hf],
             fun hf => by simp [getOptStrField, hf]⟩
    · exact Except.noConfusion h

/-- Witness for C8: a typo field fails both deserializers; a mapping
providing only `good` (and only `locale`) still defaults `interval` (and
`timezone`). -/
theorem config_unknown_fields_and_defaults_witness :
    exceptIsError (deserializeTemperatureConfig [("chipp", .str "x")]) = true ∧
    exceptIsError (deserializeTimeConfig [("formatt", .str "x")]) = true ∧
    tempCfg99.interval = 5 ∧
    timeCfgLoc.timezone = none := by
  have h := config_unknown_fields_and_defaults
  refine ⟨h.1 [("chipp", .str "x")] "chipp" (.str "x") (by decide) (by decide),
    h.2.1 [("formatt", .str "x")] "formatt" (.str "x") (by decide) (by decide),
    (h.2.2.1 [("good", .num 99)] tempCfg99 rfl).1 rfl,
    (h.2.2.2 [("locale", .str "de_DE")] timeCfgLoc rfl).2.2.2.1 rfl⟩

/-- The display invariant holds at construction. -/
theorem tempDisplayInv_new (cfg : TemperatureConfig) (id : String)
    (fmt : FormatTemplate) : TempDisplayInv (Temperature.new cfg id fmt) := by
  cases hc : cfg.collapsed <;>
    simp [TempDisplayInv, Temperature.new, ButtonWidget.new,
      ButtonWidget.with_icon, ButtonWidget.with_spacing, hc]

/-- The display invariant is preserved by every click. -/
theorem tempDisplayInv_clickStep (s : Temperature) (e : I3BarEvent)
    (h : TempDisplayInv s) : TempDisplayInv (s.clickStep e) := by
  obtain ⟨ht, hs⟩ := h
  cases hn : e.name with
  | none => exact ⟨by simp [Temperature.clickStep, hn, ht],
      by simp [Temperature.clickStep, hn, hs]⟩
  | some n =>
    by_cases hc : n = s.id ∧ e.button = .Left
    · cases hcoll : s.collapsed <;>
        simp_all [Temperature.clickStep, TempDisplayInv, ButtonWidget.set_text,
          ButtonWidget.set_spacing, hn, hc]
    · exact ⟨by simp [Temperature.clickStep, hn, hc, ht],
        by simp [Temperature.clickStep, hn, hc, hs]⟩

/-- The display invariant is preserved by the update tail over any
collected readings. -/
theorem tempDisplayInv_applyReadings (s : Temperature) (temps : List Int)
    (h : TempDisplayInv s) : TempDisplayInv (s.applyReadings temps).1 := by
  unfold Temperature.applyReadings
  split
  · split
    · exact h
    · split
      · exact h
      · dsimp only
        split
        · exact h
        · obtain ⟨ht, hs⟩ := h
          cases hc : s.collapsed <;>
            simp_all [TempDisplayInv, ButtonWidget.set_text,
              ButtonWidget.set_state, hc]
  · exact h

/-- The display invariant is preserved by a whole update cycle. -/
theorem tempDisplayInv_update (parse : String → Option SensorsOutput)
    (s : Temperature) (r : CommandResult) (h : TempDisplayInv s) :
    TempDisplayInv (Temperature.update parse s r).1 := by
  unfold Temperature.update
  cases parse (commandText r) with
  | none => exact h
  | some parsed => exact tempDisplayInv_applyReadings s _ h

/-- Witness for C9: a concrete non-empty list has max and min, and a
concrete cycle (empty JSON object, hence no readings) hits neither
unreachable error. -/
theorem temperature_update_no_minmax_error_witness :
    ([18, 42, 61] : List Int).max?.isSome = true ∧
    ([18, 42, 61] : List Int).min?.isSome = true ∧
    (Temperature.update noJson exampleTemperature (.output "boot")).2 ≠
      .error "failed to get max temperature" := by
  have h := temperature_update_no_minmax_error noJson exampleTemperature (.output "boot")
  exact ⟨(h.1 [18, 42, 61] (by decide)).1, (h.1 [18, 42, 61] (by decide)).2, h.2.1⟩
